import Mathlib

/-!
# Verification of the pydqkit rule-evaluation engine and report model

Shallow embedding of `src/pydqkit/regex_shell.py` (the column checker
`check_regex_column` and its helpers) and of `src/pydqkit/exporters.py`
(the combined failed-row view `build_failed_rows_df` and the per-rule
failed-row view of `export_html`), together with theorems settling the
specification claims about them.

Modelling conventions:
* A pandas cell is `Cell`: either null (`None`/`NaN`) or a scalar
  (string or integer); `to_str_or_none` embeds `_to_str_or_none`
  (total coercion to `Option String`).
* A `DataFrame` is an ordered association list of named columns plus the
  ordered list of stable row identifiers (the pandas index).
* The Python `re` engine is an external collaborator: a compiled pattern
  is a `Regex` — a pair of total match predicates (`search`, `fullmatch`)
  — and `re.compile` is a parameter
  `recompile : String → Nat → Except String Regex` receiving the pattern
  and the resolved flag bitmask; `Except.error` models the caught
  `re.error` exception.
* Python ints are `Nat`/`Int`; the float `pass_rate` is modelled as an
  exact rational `ℚ`.
-/

namespace PDQ

/-- Stable row identifier (the pandas index label of a row). -/
abbrev RowId := Nat

/-- A dataset cell: null, or a scalar value (string or integer). -/
inductive Cell where
  | null : Cell
  | str (s : String) : Cell
  | int (n : Int) : Cell
deriving DecidableEq, Repr

/-- Embeds `_to_str_or_none` (regex_shell.py lines 38-41): null cells map
to `none` (`pd.isna`), any other value is stringified. Total: coercion
never fails. -/
def to_str_or_none : Cell → Option String
  | Cell.null => none
  | Cell.str s => some s
  | Cell.int n => some (toString n)

/-- Python `str.lower()`, character-wise over the string's characters.
(Defined over the character list so that it evaluates by kernel
reduction.) -/
def pyLower (s : String) : String :=
  String.mk (s.data.map Char.toLower)

/-- Python `str.upper()`, character-wise over the string's characters. -/
def pyUpper (s : String) : String :=
  String.mk (s.data.map Char.toUpper)

/-- Python `str.strip()`: remove leading and trailing whitespace. -/
def pyStrip (s : String) : String :=
  String.mk (((s.data.dropWhile Char.isWhitespace).reverse.dropWhile Char.isWhitespace).reverse)

/-- A compiled pattern, abstracting the Python `re.Pattern` object by its
two boolean match predicates used in the checker: `rx.search` (pattern
found anywhere) and `rx.fullmatch` (entire string matches), already
coerced by `bool(...)`. -/
structure Regex where
  search : String → Bool
  fullmatch : String → Bool

/-- Embeds `_FLAG_MAP` (regex_shell.py lines 15-26) with the numeric
values of the CPython `re` flag constants. -/
def FLAG_MAP : List (String × Nat) :=
  [("IGNORECASE", 2), ("I", 2),
   ("MULTILINE", 8), ("M", 8),
   ("DOTALL", 16), ("S", 16),
   ("ASCII", 256), ("A", 256),
   ("VERBOSE", 64), ("X", 64)]

/-- Embeds the loop of `_compile` (regex_shell.py lines 30-34): fold the
flag tokens, stripping and upper-casing each, OR-ing the mapped value of
recognized tokens into the bitmask, silently dropping the rest. -/
def resolveFlagBits (flags : List String) : Nat :=
  flags.foldl
    (fun f x =>
      match FLAG_MAP.lookup (pyUpper (pyStrip x)) with
      | some v => f.lor v
      | none => f)
    0

/-- Embeds `_compile` (regex_shell.py lines 29-35): resolve the flag
bitmask, then invoke the external `re.compile` (the `recompile`
parameter); a raised `re.error` is the `Except.error` branch. -/
def compileRx (recompile : String → Nat → Except String Regex)
    (pattern : String) (flags : List String) : Except String Regex :=
  recompile pattern (resolveFlagBits flags)

/-- Embeds `_normalize_mode` (regex_shell.py lines 65-73). -/
def normalize_mode (mode_raw : String) : String :=
  let m := pyLower (pyStrip mode_raw)
  if m = "" then "fullmatch"
  else if m ∈ ["full", "match", "full_match", "full-match", "fullmatch"] then "fullmatch"
  else if m ∈ ["find", "search", "contains"] then "search"
  else "fullmatch"

/-- The match test applied to one non-null cell string (regex_shell.py
lines 120-123): `rx.search` under mode `search`, `rx.fullmatch`
otherwise. -/
def ruleMatch (rx : Regex) (mode_norm : String) (v : String) : Bool :=
  if mode_norm = "search" then rx.search v else rx.fullmatch v

/-- A tabular dataset: ordered named columns (each an ordered list of
cells) and the ordered list of stable row identifiers. -/
structure DataFrame where
  columnsData : List (String × List Cell)
  rowIds : List RowId
deriving DecidableEq, Repr

/-- `df.columns`: the ordered column labels. -/
def DataFrame.columnNames (df : DataFrame) : List String :=
  df.columnsData.map (fun p => p.1)

/-- The raw cell list of a named column (first column with that label). -/
def DataFrame.colVals (df : DataFrame) (c : String) : List Cell :=
  (df.columnsData.lookup c).getD []

/-- `df[c]`: the column as a pandas Series — cells paired with their row
identifiers, in dataset row order. -/
def DataFrame.col (df : DataFrame) (c : String) : List (RowId × Cell) :=
  df.rowIds.zip (df.colVals c)

/-- `s = df[column].map(_to_str_or_none)` (regex_shell.py line 115): the
column coerced cell-wise to string-or-null, identifiers preserved. -/
def columnEntries (df : DataFrame) (column : String) : List (RowId × Option String) :=
  (df.col column).map (fun p => (p.1, to_str_or_none p.2))

/-- `s[is_null]`: the null-valued entries of the coerced column, in
dataset row order. -/
def nullEntries (df : DataFrame) (column : String) : List (RowId × Option String) :=
  (columnEntries df column).filter (fun p => p.2.isNone)

/-- `non_null = s[~is_null]` (regex_shell.py line 117): the non-null
entries with their string values, in dataset row order. -/
def nonNullEntries (df : DataFrame) (column : String) : List (RowId × String) :=
  (columnEntries df column).filterMap (fun p => p.2.map (fun v => (p.1, v)))

/-- The `counts` dict of a successful check result. -/
structure Counts where
  total : Nat
  pass : Nat
  fail : Nat
  null : Nat
  non_null : Nat
deriving DecidableEq, Repr

/-- The fields of a successful (`ok=True`) check result dict
(regex_shell.py lines 149-167). -/
structure CheckOk where
  rule_type : String
  column : String
  pattern : String
  mode : String
  allow_null : Bool
  flags : List String
  counts : Counts
  pass_rate : ℚ
  fail_values : List String
  fail_indices : List RowId
deriving DecidableEq, Repr

/-- A check result: `{ok: False, error: e}` (carrying no other fields),
or `{ok: True, ...}`. -/
inductive CheckResult where
  | err (error : String) : CheckResult
  | ok (r : CheckOk) : CheckResult
deriving DecidableEq, Repr

/-- The success branch of `check_regex_column` (regex_shell.py lines
115-167), reached once the column exists and the pattern compiled to
`rx`. Mirrors the source line by line:
* `s`, `is_null`, `non_null` — the coerced column and its partition;
* `matched` — each non-null entry paired with its match outcome;
* pass/fail counts over the non-null part plus the null part per
  `allow_null` (lines 125-136);
* `total`, `pass_rate` (lines 138-139), `fail_values` (line 141),
* `fail_indices` with the two emptiness-guarded extends (lines 143-147). -/
def evalSuccess (df : DataFrame) (column : String) (pattern : String)
    (mode : String) (allow_null : Bool) (flags : List String)
    (sample_fail_values : Nat) (rx : Regex) : CheckOk :=
  let s := columnEntries df column
  let nullPart := s.filter (fun p => p.2.isNone)
  let non_null := s.filterMap (fun p => p.2.map (fun v => (p.1, v)))
  let mode_norm := normalize_mode mode
  let matched := non_null.map (fun p => (p, ruleMatch rx mode_norm p.2))
  let passNonNull := matched.filter (fun q => q.2)
  let failNonNull := (matched.filter (fun q => !q.2)).map (fun q => q.1)
  let pass_count := passNonNull.length + (if allow_null then nullPart.length else 0)
  let fail_count := failNonNull.length + (if allow_null then 0 else nullPart.length)
  let total := s.length
  let pass_rate : ℚ := if total = 0 then 1 else (pass_count : ℚ) / (total : ℚ)
  let fail_values := (failNonNull.map (fun p => p.2)).take sample_fail_values
  let fail_indices :=
    (if failNonNull.isEmpty then [] else failNonNull.map (fun p => p.1))
      ++ (if !allow_null && !nullPart.isEmpty then nullPart.map (fun p => p.1) else [])
  { rule_type := "regex"
    column := column
    pattern := pattern
    mode := mode_norm
    allow_null := allow_null
    flags := flags.map (fun x => pyUpper (pyStrip x))
    counts :=
      { total := total
        pass := pass_count
        fail := fail_count
        null := nullPart.length
        non_null := non_null.length }
    pass_rate := pass_rate
    fail_values := fail_values
    fail_indices := fail_indices }

/-- Embeds `check_regex_column` (regex_shell.py lines 97-167):
column-existence guard, pattern compilation guard, then the success
branch `evalSuccess`. -/
def check_regex_column (recompile : String → Nat → Except String Regex)
    (df : DataFrame) (column : String) (pattern : String)
    (mode : String) (allow_null : Bool) (flags : List String)
    (sample_fail_values : Nat) : CheckResult :=
  if column ∉ df.columnNames then
    CheckResult.err ("Column not found: " ++ column)
  else
    match compileRx recompile pattern flags with
    | Except.error e => CheckResult.err ("Regex compile failed: " ++ e)
    | Except.ok rx =>
        CheckResult.ok (evalSuccess df column pattern mode allow_null flags sample_fail_values rx)

/-!
## Exporters (exporters.py)

`build_failed_rows_df` (lines 87-133) and the per-rule failed-row
fragments of `export_html` (lines 287-316). The `fail_map` dict — used in
the source only through key membership and `get` — is modelled as the
function `failMapOf`, which at each row identifier returns the list of
issue descriptions appended to that key across the history iteration, in
iteration order (outer loop over history, inner loop over the result's
`fail_indices`).
-/

/-- The issue description built for one retained result
(exporters.py lines 101-110 and 297-306): for `rule_type == "regex"`,
`"<column> !~ <pattern>"` with `" (NULL not allowed)"` appended when
nulls are disallowed; any other rule type uses `"<column>: <expr>"`
framing (with `expr` defaulting to the pattern, as the dict `get` chain
does for results lacking an `expr` key). -/
def ruleDesc (r : CheckOk) : String :=
  if r.rule_type = "regex" then
    r.column ++ " !~ " ++ r.pattern ++ (if r.allow_null then "" else " (NULL not allowed)")
  else
    r.column ++ ": " ++ r.pattern ++ (if r.allow_null then "" else " (NULL not allowed)")

/-- The issue descriptions one history entry contributes to the
`fail_map` at row identifier `i`: nothing for an `ok=False` result
(`continue`, line 95), nothing when `fail_indices` is empty (`continue`,
line 99), otherwise one copy of the description per occurrence of `i` in
`fail_indices` (the `for idx in fail_idx` append loop, lines 112-113). -/
def descsAt (res : CheckResult) (i : RowId) : List String :=
  match res with
  | CheckResult.err _ => []
  | CheckResult.ok r =>
      if r.fail_indices.isEmpty then []
      else (r.fail_indices.filter (fun j => j == i)).map (fun _ => ruleDesc r)

/-- The `fail_map` of `build_failed_rows_df` as a function: the issue
descriptions accumulated at row identifier `i`, in history order. -/
def failMapOf (history : List CheckResult) (i : RowId) : List String :=
  (history.map (fun res => descsAt res i)).flatten

/-- The retained (`ok=True`) results of a history, in order. -/
def retainedOks (history : List CheckResult) : List CheckOk :=
  history.filterMap (fun res =>
    match res with
    | CheckResult.ok r => some r
    | CheckResult.err _ => none)

/-- `ordered_failed_indices = [idx for idx in df.index if idx in fail_map]`
(exporters.py line 124): the dataset row identifiers holding at least one
issue, in dataset row order. (A key is present in `fail_map` exactly when
at least one description was appended to it.) -/
def ordered_failed_indices (df : DataFrame) (history : List CheckResult) : List RowId :=
  df.rowIds.filter (fun i => !(failMapOf history i).isEmpty)

/-- `df.loc[idx][c]`: the cell of column `c` in the row labelled `idx`. -/
def DataFrame.cellAt (df : DataFrame) (c : String) (i : RowId) : Cell :=
  ((df.col c).lookup i).getD Cell.null

/-- `_safe_cell` (exporters.py lines 121-122): null becomes the empty
string, any other value is kept. -/
def safe_cell (v : Cell) : Cell :=
  match v with
  | Cell.null => Cell.str ""
  | v => v

/-- One row of the combined failed-row view: the dataset cells (made
null-safe) under their column labels, plus the `_dq_issue` annotation. -/
structure FailedRow where
  cells : List (String × Cell)
  dq_issue : String
deriving DecidableEq, Repr

/-- The row emitted for identifier `idx` (exporters.py lines 127-131):
the row's cells through `_safe_cell`, and
`_dq_issue = "FAILED: " + " || ".join(fail_map[idx])`. -/
def mkFailedRow (df : DataFrame) (history : List CheckResult) (idx : RowId) : FailedRow :=
  { cells := df.columnNames.map (fun c => (c, safe_cell (df.cellAt c idx)))
    dq_issue := "FAILED: " ++ String.intercalate " || " (failMapOf history idx) }

/-- Embeds `build_failed_rows_df` (exporters.py lines 87-133) as the list
of emitted rows: one per identifier in `ordered_failed_indices`, in that
order. (The `if not fail_map: return pd.DataFrame()` early return
coincides with the empty list here.) -/
def build_failed_rows_df (df : DataFrame) (history : List CheckResult) : List FailedRow :=
  (ordered_failed_indices df history).map (mkFailedRow df history)

/-- The per-rule failed-row view of `export_html` (exporters.py lines
308-309): `fail_set = set(fail_idx)` and
`ordered = [idx for idx in df.index if idx in fail_set]` — the row
identifiers shown when this rule is selected on the dashboard, in
dataset row order. -/
def perRuleOrderedIds (df : DataFrame) (r : CheckOk) : List RowId :=
  df.rowIds.filter (fun i => r.fail_indices.contains i)

/-!
## State-passing form of the checker

`check_regex_column` receives the live dataframe object. Every operation
the source performs on it — the `df.columns` membership test (line 107)
and the column extraction `df[column]` (line 115, whose `.map`, masking
and aggregation all act on freshly created Series objects) — is a read.
The state-passing form threads the dataframe through those two accesses
and returns it alongside the result, making the frame property (the
dataframe after the call) a stated fact rather than an implicit one. -/

/-- Reading `df.columns`: returns the labels and the dataframe unchanged. -/
def dfColumnsOp (df : DataFrame) : DataFrame × List String :=
  (df, df.columnNames)

/-- Reading `df[column]` and mapping `_to_str_or_none` over the fresh
Series: returns the coerced entries and the dataframe unchanged. -/
def dfColumnOp (df : DataFrame) (column : String) : DataFrame × List (RowId × Option String) :=
  (df, columnEntries df column)

/-- `check_regex_column` with the dataframe threaded through each access
the source makes to it; the final dataframe is returned with the result. -/
def check_regex_column_state (recompile : String → Nat → Except String Regex)
    (df : DataFrame) (column : String) (pattern : String)
    (mode : String) (allow_null : Bool) (flags : List String)
    (sample_fail_values : Nat) : DataFrame × CheckResult :=
  let dfcols := dfColumnsOp df
  if column ∉ dfcols.2 then
    (dfcols.1, CheckResult.err ("Column not found: " ++ column))
  else
    match compileRx recompile pattern flags with
    | Except.error e => (dfcols.1, CheckResult.err ("Regex compile failed: " ++ e))
    | Except.ok rx =>
        let dfcol := dfColumnOp dfcols.1 column
        (dfcol.1,
          CheckResult.ok (evalSuccess dfcol.1 column pattern mode allow_null flags sample_fail_values rx))

/-!
## Concrete instances

The scenario dataset of the spec (a `status` column with six rows) and
concrete regex semantics for the patterns used in concrete statements.
Pattern semantics are supplied through `recompile` functions that model
the CPython `re` engine on exactly the patterns they name and reject
everything else.
-/

/-- The scenario dataset: one column `status` with values
`["ACTIVE", "INACTIVE", "BAD", "ACTIVE", null, "inactive"]` and the
default integer index `0..5`. -/
def statusDF : DataFrame :=
  { columnsData :=
      [("status",
        [Cell.str "ACTIVE", Cell.str "INACTIVE", Cell.str "BAD",
         Cell.str "ACTIVE", Cell.null, Cell.str "inactive"])]
    rowIds := [0, 1, 2, 3, 4, 5] }

/-- The semantics of the pattern `^(ACTIVE|INACTIVE)$` compiled with no
flags: both anchors pin the match to the whole line, so `fullmatch` (and,
on newline-free strings, `search`) succeeds exactly on the two literal
alternatives. -/
def statusRegex : Regex :=
  { search := fun s => s == "ACTIVE" || s == "INACTIVE"
    fullmatch := fun s => s == "ACTIVE" || s == "INACTIVE" }

/-- A `re.compile` model defined on exactly the scenario pattern with an
empty flag bitmask; every other input is a compile error. -/
def statusCompile : String → Nat → Except String Regex :=
  fun p f =>
    if p == "^(ACTIVE|INACTIVE)$" && f == 0 then Except.ok statusRegex
    else Except.error "unmodelled pattern"

/-- A regex that matches nothing (e.g. the pattern `(?!)` — a
never-satisfied lookahead): every cell fails. Used to exercise the
fail-value sampling. -/
def neverRegex : Regex :=
  { search := fun _ => false, fullmatch := fun _ => false }

/-- A `re.compile` model for the never-matching pattern `(?!)` with any
flag bitmask. -/
def neverCompile : String → Nat → Except String Regex :=
  fun p _ =>
    if p == "(?!)" then Except.ok neverRegex
    else Except.error "unmodelled pattern"

/-!
## Result accessors and specification-side descriptions

Accessors project the fields of a result (with inert defaults on the
error branch); the specification-side functions describe, directly in
terms of the dataset column, the sets the spec's sentences speak about
(non-null failing entries, null row identifiers). The claim theorems
relate the checker's output to these.
-/

/-- `res["ok"]`. -/
def CheckResult.isOk : CheckResult → Bool
  | CheckResult.ok _ => true
  | CheckResult.err _ => false

/-- The success payload of a result (an inert all-default payload on the
error branch, which carries no such fields). -/
def CheckResult.getOk : CheckResult → CheckOk
  | CheckResult.ok r => r
  | CheckResult.err _ =>
      { rule_type := "", column := "", pattern := "", mode := ""
        allow_null := true, flags := [], pass_rate := 0
        counts := { total := 0, pass := 0, fail := 0, null := 0, non_null := 0 }
        fail_values := [], fail_indices := [] }

/-- The non-null entries of the column that fail the match test, in
non-null-subset order (which is dataset row order). -/
def nonNullFailEntries (df : DataFrame) (column : String) (rx : Regex)
    (mode_norm : String) : List (RowId × String) :=
  (nonNullEntries df column).filter (fun p => !(ruleMatch rx mode_norm p.2))

/-- The identifiers of the non-null failing rows, in non-null-subset
order. -/
def nonNullFailIds (df : DataFrame) (column : String) (rx : Regex)
    (mode_norm : String) : List RowId :=
  (nonNullFailEntries df column rx mode_norm).map (fun p => p.1)

/-- The identifiers of the null-valued rows, in null-subset order. -/
def nullIds (df : DataFrame) (column : String) : List RowId :=
  (nullEntries df column).map (fun p => p.1)

/-!
## General lemmas
-/

lemma length_filter_add_length_filter_not {α : Type} (l : List α) (p : α → Bool) :
    (l.filter p).length + (l.filter (fun a => !p a)).length = l.length := by
  induction l with
  | nil => rfl
  | cons a l ih =>
      by_cases h : p a = true <;> simp [List.filter_cons, h] <;> omega

lemma length_filter_isNone_add_filterMap {α β : Type} (s : List (α × Option β)) :
    (s.filter (fun p => p.2.isNone)).length
      + (s.filterMap (fun p => p.2.map (fun v => (p.1, v)))).length = s.length := by
  induction s with
  | nil => rfl
  | cons a s ih =>
      obtain ⟨i, v⟩ := a
      cases v <;> simp [List.filter_cons, List.filterMap_cons] <;> omega

lemma filter_pos_map_fst {α : Type} (l : List α) (g : α → Bool) :
    ((l.map (fun a => (a, g a))).filter (fun q => q.2)).map (fun q => q.1)
      = l.filter g := by
  induction l with
  | nil => rfl
  | cons a l ih =>
      by_cases h : g a = true <;> simp [List.filter_cons, h, ih]

lemma filter_neg_map_fst {α : Type} (l : List α) (g : α → Bool) :
    ((l.map (fun a => (a, g a))).filter (fun q => !q.2)).map (fun q => q.1)
      = l.filter (fun a => !g a) := by
  induction l with
  | nil => rfl
  | cons a l ih =>
      by_cases h : g a = true <;> simp [List.filter_cons, h, ih]

/-!
## Inversion lemmas for the checker's control flow
-/

lemma check_eq_ok_iff {recompile : String → Nat → Except String Regex}
    {df : DataFrame} {column pattern mode : String} {allow_null : Bool}
    {flags : List String} {k : Nat} {r : CheckOk} :
    check_regex_column recompile df column pattern mode allow_null flags k = CheckResult.ok r
      ↔ column ∈ df.columnNames
        ∧ ∃ rx, recompile pattern (resolveFlagBits flags) = Except.ok rx
            ∧ r = evalSuccess df column pattern mode allow_null flags k rx := by
  unfold check_regex_column compileRx
  by_cases h : column ∈ df.columnNames
  · cases hrx : recompile pattern (resolveFlagBits flags) <;>
      simp [h, hrx, eq_comm]
  · simp [h]

lemma check_eq_err_iff {recompile : String → Nat → Except String Regex}
    {df : DataFrame} {column pattern mode : String} {allow_null : Bool}
    {flags : List String} {k : Nat} {e : String} :
    check_regex_column recompile df column pattern mode allow_null flags k = CheckResult.err e
      ↔ (column ∉ df.columnNames ∧ e = "Column not found: " ++ column)
        ∨ (column ∈ df.columnNames
            ∧ ∃ d, recompile pattern (resolveFlagBits flags) = Except.error d
                ∧ e = "Regex compile failed: " ++ d) := by
  unfold check_regex_column compileRx
  by_cases h : column ∈ df.columnNames
  · cases hrx : recompile pattern (resolveFlagBits flags) <;>
      simp [h, hrx, eq_comm]
  · simp [h, eq_comm]

lemma check_isOk_iff {recompile : String → Nat → Except String Regex}
    {df : DataFrame} {column pattern mode : String} {allow_null : Bool}
    {flags : List String} {k : Nat} :
    (check_regex_column recompile df column pattern mode allow_null flags k).isOk = true
      ↔ column ∈ df.columnNames
        ∧ ∃ rx, recompile pattern (resolveFlagBits flags) = Except.ok rx := by
  unfold check_regex_column compileRx
  by_cases h : column ∈ df.columnNames
  · cases hrx : recompile pattern (resolveFlagBits flags) <;>
      simp [h, hrx, CheckResult.isOk]
  · simp [h, CheckResult.isOk]

lemma check_getOk_eq {recompile : String → Nat → Except String Regex}
    {df : DataFrame} {column pattern mode : String} {allow_null : Bool}
    {flags : List String} {k : Nat} {rx : Regex}
    (hcol : column ∈ df.columnNames)
    (hrx : recompile pattern (resolveFlagBits flags) = Except.ok rx) :
    (check_regex_column recompile df column pattern mode allow_null flags k).getOk
      = evalSuccess df column pattern mode allow_null flags k rx := by
  unfold check_regex_column compileRx
  simp [hcol, hrx, CheckResult.getOk]

lemma length_filter_pos {α : Type} (l : List α) (g : α → Bool) :
    ((l.map (fun a => (a, g a))).filter (fun q => q.2)).length = (l.filter g).length := by
  have h := congrArg List.length (filter_pos_map_fst l g)
  simpa using h

lemma ite_isEmpty_map {α β : Type} (l : List α) (f : α → β) :
    (if l.isEmpty then ([] : List β) else l.map f) = l.map f := by
  cases l <;> simp

/-!
## Field lemmas for the success branch
-/

lemma evalSuccess_mode {df : DataFrame} {column pattern mode : String}
    {allow_null : Bool} {flags : List String} {k : Nat} {rx : Regex} :
    (evalSuccess df column pattern mode allow_null flags k rx).mode = normalize_mode mode := rfl

lemma evalSuccess_counts_total {df : DataFrame} {column pattern mode : String}
    {allow_null : Bool} {flags : List String} {k : Nat} {rx : Regex} :
    (evalSuccess df column pattern mode allow_null flags k rx).counts.total
      = (columnEntries df column).length := rfl

lemma evalSuccess_counts_null {df : DataFrame} {column pattern mode : String}
    {allow_null : Bool} {flags : List String} {k : Nat} {rx : Regex} :
    (evalSuccess df column pattern mode allow_null flags k rx).counts.null
      = (nullEntries df column).length := rfl

lemma evalSuccess_counts_non_null {df : DataFrame} {column pattern mode : String}
    {allow_null : Bool} {flags : List String} {k : Nat} {rx : Regex} :
    (evalSuccess df column pattern mode allow_null flags k rx).counts.non_null
      = (nonNullEntries df column).length := rfl

lemma evalSuccess_counts_pass {df : DataFrame} {column pattern mode : String}
    {allow_null : Bool} {flags : List String} {k : Nat} {rx : Regex} :
    (evalSuccess df column pattern mode allow_null flags k rx).counts.pass
      = ((nonNullEntries df column).filter
            (fun p => ruleMatch rx (normalize_mode mode) p.2)).length
          + (if allow_null then (nullEntries df column).length else 0) := by
  show ((((nonNullEntries df column).map
      (fun p => (p, ruleMatch rx (normalize_mode mode) p.2))).filter
        (fun q => q.2)).length) + _ = _
  rw [length_filter_pos]
  rfl

lemma evalSuccess_counts_fail {df : DataFrame} {column pattern mode : String}
    {allow_null : Bool} {flags : List String} {k : Nat} {rx : Regex} :
    (evalSuccess df column pattern mode allow_null flags k rx).counts.fail
      = (nonNullFailEntries df column rx (normalize_mode mode)).length
          + (if allow_null then 0 else (nullEntries df column).length) := by
  show ((((nonNullEntries df column).map
      (fun p => (p, ruleMatch rx (normalize_mode mode) p.2))).filter
        (fun q => !q.2)).map (fun q => q.1)).length + _ = _
  rw [filter_neg_map_fst]
  rfl

lemma evalSuccess_fail_indices {df : DataFrame} {column pattern mode : String}
    {allow_null : Bool} {flags : List String} {k : Nat} {rx : Regex} :
    (evalSuccess df column pattern mode allow_null flags k rx).fail_indices
      = nonNullFailIds df column rx (normalize_mode mode)
          ++ (if allow_null then [] else nullIds df column) := by
  show (if (((((nonNullEntries df column).map
      (fun p => (p, ruleMatch rx (normalize_mode mode) p.2))).filter
        (fun q => !q.2)).map (fun q => q.1))).isEmpty then []
      else ((((nonNullEntries df column).map
      (fun p => (p, ruleMatch rx (normalize_mode mode) p.2))).filter
        (fun q => !q.2)).map (fun q => q.1)).map (fun p => p.1))
      ++ _ = _
  rw [filter_neg_map_fst, ite_isEmpty_map]
  unfold nonNullFailIds nonNullFailEntries nullIds nullEntries
  congr 1
  cases allow_null with
  | false =>
      cases h : ((columnEntries df column).filter (fun p => p.2.isNone)) <;> simp [h]
  | true => simp

lemma evalSuccess_fail_values {df : DataFrame} {column pattern mode : String}
    {allow_null : Bool} {flags : List String} {k : Nat} {rx : Regex} :
    (evalSuccess df column pattern mode allow_null flags k rx).fail_values
      = ((nonNullFailEntries df column rx (normalize_mode mode)).map
          (fun p => p.2)).take k := by
  show (((((nonNullEntries df column).map
      (fun p => (p, ruleMatch rx (normalize_mode mode) p.2))).filter
        (fun q => !q.2)).map (fun q => q.1)).map (fun p => p.2)).take k = _
  rw [filter_neg_map_fst]
  rfl

lemma evalSuccess_pass_rate {df : DataFrame} {column pattern mode : String}
    {allow_null : Bool} {flags : List String} {k : Nat} {rx : Regex} :
    (evalSuccess df column pattern mode allow_null flags k rx).pass_rate
      = if (evalSuccess df column pattern mode allow_null flags k rx).counts.total = 0
        then 1
        else ((evalSuccess df column pattern mode allow_null flags k rx).counts.pass : ℚ)
              / ((evalSuccess df column pattern mode allow_null flags k rx).counts.total : ℚ) := rfl

/-!
## Lemmas on the failed-row views
-/

lemma descsAt_ne_nil_iff (res : CheckResult) (i : RowId) :
    descsAt res i ≠ [] ↔ ∃ r, res = CheckResult.ok r ∧ i ∈ r.fail_indices := by
  cases res with
  | err e => simp [descsAt]
  | ok r =>
      simp only [descsAt, CheckResult.ok.injEq]
      by_cases h : r.fail_indices.isEmpty
      · rw [if_pos h]
        simp [List.isEmpty_iff.mp h]
      · rw [if_neg h]
        simp only [ne_eq, List.map_eq_nil_iff, List.filter_eq_nil_iff, beq_iff_eq,
          not_forall]
        constructor
        · rintro ⟨j, hj, hji⟩
          exact ⟨r, rfl, by simpa [not_not.mp hji] using hj⟩
        · rintro ⟨r', rfl, hi⟩
          exact ⟨i, hi, by simp⟩

lemma failMapOf_ne_nil_iff (history : List CheckResult) (i : RowId) :
    failMapOf history i ≠ []
      ↔ ∃ r, CheckResult.ok r ∈ history ∧ i ∈ r.fail_indices := by
  simp only [failMapOf, ne_eq, List.flatten_eq_nil_iff, List.mem_map, not_forall]
  constructor
  · rintro ⟨l, ⟨res, hres, rfl⟩, hne⟩
    obtain ⟨r, rfl, hi⟩ := (descsAt_ne_nil_iff res i).mp hne
    exact ⟨r, hres, hi⟩
  · rintro ⟨r, hr, hi⟩
    exact ⟨descsAt (CheckResult.ok r) i, ⟨CheckResult.ok r, hr, rfl⟩,
      (descsAt_ne_nil_iff (CheckResult.ok r) i).mpr ⟨r, rfl, hi⟩⟩

lemma filter_beq_of_nodup {l : List RowId} (hl : l.Nodup) (i : RowId) :
    l.filter (fun j => j == i) = if i ∈ l then [i] else [] := by
  induction l with
  | nil => simp
  | cons a l ih =>
      rw [List.nodup_cons] at hl
      obtain ⟨ha, hl⟩ := hl
      rw [List.filter_cons]
      by_cases hai : a = i
      · subst hai
        simp [ih hl, ha]
      · have h1 : ((a == i) = true) = False := by simp [hai]
        simp [h1, ih hl, List.mem_cons, Ne.symm hai]

lemma descsAt_ok_of_nodup {r : CheckOk} (hnd : r.fail_indices.Nodup) (i : RowId) :
    descsAt (CheckResult.ok r) i
      = if i ∈ r.fail_indices then [ruleDesc r] else [] := by
  simp only [descsAt]
  by_cases h : r.fail_indices.isEmpty
  · rw [if_pos h]
    simp [List.isEmpty_iff.mp h]
  · rw [if_neg h, filter_beq_of_nodup hnd]
    by_cases hi : i ∈ r.fail_indices <;> simp [hi]

lemma failMapOf_of_nodup (history : List CheckResult) (i : RowId)
    (hfi : ∀ r, CheckResult.ok r ∈ history → r.fail_indices.Nodup) :
    failMapOf history i
      = ((retainedOks history).filter (fun r => decide (i ∈ r.fail_indices))).map ruleDesc := by
  induction history with
  | nil => rfl
  | cons res rest ih =>
      have hrest : ∀ r, CheckResult.ok r ∈ rest → r.fail_indices.Nodup :=
        fun r hr => hfi r (List.mem_cons_of_mem _ hr)
      have hstep : failMapOf (res :: rest) i = descsAt res i ++ failMapOf rest i := rfl
      cases res with
      | err e =>
          rw [hstep, ih hrest]
          rfl
      | ok r =>
          rw [hstep, ih hrest,
            descsAt_ok_of_nodup (hfi r (List.mem_cons_self _ _)) i]
          have hret : retainedOks (CheckResult.ok r :: rest) = r :: retainedOks rest := rfl
          rw [hret, List.filter_cons]
          by_cases hi : i ∈ r.fail_indices
          · simp [hi]
          · simp [hi]

/-- The counting invariant of the spec: `total = pass + fail`,
`total = null + non_null`, and `total` is the dataset's row count. -/
def CountsInvariant (c : Counts) (nrows : Nat) : Prop :=
  c.total = c.pass + c.fail ∧ c.total = c.null + c.non_null ∧ c.total = nrows

/-- "The first k distinct values" of a list: scan in order, keep each
value's first occurrence only, truncate to k. (The reading of the
claim's "first k distinct failing non-null cell values"; the code does
not deduplicate, which the counterexample below exhibits.) -/
def firstDistinctAux : List String → List String → List String
  | [], _ => []
  | x :: xs, seen =>
      if x ∈ seen then firstDistinctAux xs seen
      else x :: firstDistinctAux xs (x :: seen)

/-- See `firstDistinctAux`: the distinct values in first-occurrence
order, truncated to `k`. -/
def firstDistinctTake (k : Nat) (l : List String) : List String :=
  (firstDistinctAux l []).take k

/-- A dataset with a duplicated failing value: column `v` holds
`["BAD", "BAD", "X"]`. -/
def dupDF : DataFrame :=
  { columnsData := [("v", [Cell.str "BAD", Cell.str "BAD", Cell.str "X"])]
    rowIds := [0, 1, 2] }

end PDQ

namespace PDQ

/-- C1: for every dataset (whose named column is as long as its index,
as every pandas DataFrame column is) and every rule whose evaluation
succeeds, the counts of the returned CheckResult satisfy
`total = pass + fail = null + non_null = row count of the dataset`. -/
theorem check_counts_invariant
    (recompile : String → Nat → Except String Regex) (df : DataFrame)
    (column pattern mode : String) (allow_null : Bool) (flags : List String) (k : Nat)
    (hwf : (df.colVals column).length = df.rowIds.length)
    (h : (check_regex_column recompile df column pattern mode allow_null flags k).isOk = true) :
    CountsInvariant
      ((check_regex_column recompile df column pattern mode allow_null flags k).getOk.counts)
      df.rowIds.length := by
  obtain ⟨hcol, rx, hrx⟩ := check_isOk_iff.mp h
  rw [CountsInvariant, check_getOk_eq hcol hrx,
      evalSuccess_counts_total, evalSuccess_counts_pass, evalSuccess_counts_fail,
      evalSuccess_counts_null, evalSuccess_counts_non_null]
  have hsplit := length_filter_add_length_filter_not (nonNullEntries df column)
      (fun p => ruleMatch rx (normalize_mode mode) p.2)
  have hpart := length_filter_isNone_add_filterMap (columnEntries df column)
  have hfail : (nonNullFailEntries df column rx (normalize_mode mode)).length
      = ((nonNullEntries df column).filter
          (fun p => !(ruleMatch rx (normalize_mode mode) p.2))).length := rfl
  have hnull : (nullEntries df column).length
      = ((columnEntries df column).filter (fun p => p.2.isNone)).length := rfl
  have hnn : (nonNullEntries df column).length
      = ((columnEntries df column).filterMap
          (fun p => p.2.map (fun v => (p.1, v)))).length := rfl
  have hlen : (columnEntries df column).length = df.rowIds.length := by
    unfold columnEntries DataFrame.col
    rw [List.length_map, List.length_zip, hwf, Nat.min_self]
  have hite : (if allow_null then (nullEntries df column).length else 0)
      + (if allow_null then 0 else (nullEntries df column).length)
      = (nullEntries df column).length := by
    cases allow_null <;> simp
  refine ⟨?_, ?_, hlen⟩
  · omega
  · omega

/-- Witness for C1 at the scenario dataset and rule. -/
theorem check_counts_invariant_witness :
    ((statusDF.colVals "status").length = statusDF.rowIds.length)
    ∧ ((check_regex_column statusCompile statusDF "status" "^(ACTIVE|INACTIVE)$"
          "fullmatch" false [] 10).isOk = true)
    ∧ CountsInvariant
        ((check_regex_column statusCompile statusDF "status" "^(ACTIVE|INACTIVE)$"
            "fullmatch" false [] 10).getOk.counts)
        statusDF.rowIds.length :=
  ⟨by decide, by decide,
    check_counts_invariant statusCompile statusDF "status" "^(ACTIVE|INACTIVE)$"
      "fullmatch" false [] 10 (by decide) (by decide)⟩

/-- C5: for every successful evaluation, `pass_rate` is `pass / total`
when `total > 0` and exactly `1` when `total = 0` (the `if total else
1.0` of regex_shell.py line 139). -/
theorem check_pass_rate_spec
    (recompile : String → Nat → Except String Regex) (df : DataFrame)
    (column pattern mode : String) (allow_null : Bool) (flags : List String) (k : Nat)
    (h : (check_regex_column recompile df column pattern mode allow_null flags k).isOk = true) :
    (check_regex_column recompile df column pattern mode allow_null flags k).getOk.pass_rate
      = if (check_regex_column recompile df column pattern mode allow_null flags k).getOk.counts.total = 0
        then 1
        else ((check_regex_column recompile df column pattern mode allow_null flags k).getOk.counts.pass : ℚ)
          / ((check_regex_column recompile df column pattern mode allow_null flags k).getOk.counts.total : ℚ) := by
  obtain ⟨hcol, rx, hrx⟩ := check_isOk_iff.mp h
  rw [check_getOk_eq hcol hrx]
  exact evalSuccess_pass_rate

/-- Witness for C5 at the scenario dataset and rule. -/
theorem check_pass_rate_spec_witness :
    ((check_regex_column statusCompile statusDF "status" "^(ACTIVE|INACTIVE)$"
        "fullmatch" false [] 10).isOk = true)
    ∧ ((check_regex_column statusCompile statusDF "status" "^(ACTIVE|INACTIVE)$"
          "fullmatch" false [] 10).getOk.pass_rate
        = if (check_regex_column statusCompile statusDF "status" "^(ACTIVE|INACTIVE)$"
              "fullmatch" false [] 10).getOk.counts.total = 0
          then 1
          else ((check_regex_column statusCompile statusDF "status" "^(ACTIVE|INACTIVE)$"
                "fullmatch" false [] 10).getOk.counts.pass : ℚ)
            / ((check_regex_column statusCompile statusDF "status" "^(ACTIVE|INACTIVE)$"
                "fullmatch" false [] 10).getOk.counts.total : ℚ)) :=
  ⟨by decide,
    check_pass_rate_spec statusCompile statusDF "status" "^(ACTIVE|INACTIVE)$"
      "fullmatch" false [] 10 (by decide)⟩

/-- C6: `check_regex_column` returns a failure result exactly when the
column is absent (message `"Column not found: <column>"`) or the pattern
fails to compile under the resolved flag bitmask (message
`"Regex compile failed: <detail>"`). The failure constructor
`CheckResult.err` carries only the error message (the `ok`/`error`-only
dict), and the compile failure is the caught-exception branch of the
total function `compileRx` — no exception escapes. -/
theorem check_err_characterization
    (recompile : String → Nat → Except String Regex) (df : DataFrame)
    (column pattern mode : String) (allow_null : Bool) (flags : List String) (k : Nat)
    (e : String) :
    check_regex_column recompile df column pattern mode allow_null flags k = CheckResult.err e
      ↔ (column ∉ df.columnNames ∧ e = "Column not found: " ++ column)
        ∨ (column ∈ df.columnNames
            ∧ ∃ d, recompile pattern (resolveFlagBits flags) = Except.error d
                ∧ e = "Regex compile failed: " ++ d) :=
  check_eq_err_iff

/-- C2: for every evaluation that succeeds (column present, pattern
compiled to `rx`), `fail_indices` is exactly the identifiers of the
non-null rows failing the match, in non-null-subset order, followed —
only when `allow_null` is false — by the identifiers of all null rows in
null-subset order; and when `allow_null` is true every listed identifier
belongs to a non-null-valued row. -/
theorem check_fail_indices_spec
    (recompile : String → Nat → Except String Regex) (df : DataFrame)
    (column pattern mode : String) (allow_null : Bool) (flags : List String) (k : Nat)
    (rx : Regex)
    (hcol : column ∈ df.columnNames)
    (hrx : recompile pattern (resolveFlagBits flags) = Except.ok rx) :
    (check_regex_column recompile df column pattern mode allow_null flags k).getOk.fail_indices
      = nonNullFailIds df column rx (normalize_mode mode)
          ++ (if allow_null then [] else nullIds df column)
    ∧ (allow_null = true →
        ∀ i ∈ (check_regex_column recompile df column pattern mode allow_null flags k).getOk.fail_indices,
          ∃ v, (i, some v) ∈ columnEntries df column) := by
  rw [check_getOk_eq hcol hrx, evalSuccess_fail_indices]
  refine ⟨rfl, ?_⟩
  rintro rfl i hi
  simp only [if_pos, List.append_nil] at hi
  unfold nonNullFailIds nonNullFailEntries nonNullEntries at hi
  simp only [List.mem_map, List.mem_filter, List.mem_filterMap] at hi
  obtain ⟨⟨j, v⟩, ⟨⟨⟨i', ov⟩, hmem, hov⟩, _⟩, rfl⟩ := hi
  cases ov with
  | none => simp at hov
  | some w =>
      simp only [Option.map_some] at hov
      obtain ⟨rfl, rfl⟩ := Prod.mk.injEq .. ▸ Option.some.injEq .. ▸ hov
      exact ⟨w, by simpa using hmem⟩

/-- Witness for C2 at the scenario dataset and rule. -/
theorem check_fail_indices_spec_witness :
    ("status" ∈ statusDF.columnNames)
    ∧ (statusCompile "^(ACTIVE|INACTIVE)$" (resolveFlagBits []) = Except.ok statusRegex)
    ∧ ((check_regex_column statusCompile statusDF "status" "^(ACTIVE|INACTIVE)$"
          "fullmatch" false [] 10).getOk.fail_indices
        = nonNullFailIds statusDF "status" statusRegex (normalize_mode "fullmatch")
            ++ (if false then [] else nullIds statusDF "status")
      ∧ (false = true →
          ∀ i ∈ (check_regex_column statusCompile statusDF "status" "^(ACTIVE|INACTIVE)$"
              "fullmatch" false [] 10).getOk.fail_indices,
            ∃ v, (i, some v) ∈ columnEntries statusDF "status")) :=
  ⟨by decide, rfl,
    check_fail_indices_spec statusCompile statusDF "status" "^(ACTIVE|INACTIVE)$"
      "fullmatch" false [] 10 statusRegex (by decide) rfl⟩

/-- C4 counterexample: on the scenario dataset
`status = ["ACTIVE", "INACTIVE", "BAD", "ACTIVE", null, "inactive"]`
with rule `^(ACTIVE|INACTIVE)$`, fullmatch, `allow_null=false`, the code
does NOT produce `pass=2, fail=4`: three non-null values match
(`"ACTIVE"` at rows 0 and 3 and `"INACTIVE"` at row 1), so `pass=3` and
`fail=3`. -/
theorem scenario_counts_counterexample :
    ((check_regex_column statusCompile statusDF "status" "^(ACTIVE|INACTIVE)$"
        "fullmatch" false [] 10).getOk.counts.pass ≠ 2)
    ∧ ((check_regex_column statusCompile statusDF "status" "^(ACTIVE|INACTIVE)$"
        "fullmatch" false [] 10).getOk.counts.fail ≠ 4) := by
  constructor <;> decide

/-- C4 (amended): the scenario evaluation succeeds and yields
`total=6, non_null=5, null=1, pass=3, fail=3` and `pass_rate = 0.5`. -/
theorem scenario_counts :
    ((check_regex_column statusCompile statusDF "status" "^(ACTIVE|INACTIVE)$"
        "fullmatch" false [] 10).isOk = true)
    ∧ ((check_regex_column statusCompile statusDF "status" "^(ACTIVE|INACTIVE)$"
        "fullmatch" false [] 10).getOk.counts
        = { total := 6, pass := 3, fail := 3, null := 1, non_null := 5 })
    ∧ ((check_regex_column statusCompile statusDF "status" "^(ACTIVE|INACTIVE)$"
        "fullmatch" false [] 10).getOk.pass_rate = 1 / 2) := by
  refine ⟨by decide, by decide, ?_⟩
  have hok := @check_getOk_eq statusCompile statusDF "status" "^(ACTIVE|INACTIVE)$"
    "fullmatch" false [] 10 statusRegex (by decide) rfl
  rw [hok, evalSuccess_pass_rate]
  have h1 : (evalSuccess statusDF "status" "^(ACTIVE|INACTIVE)$" "fullmatch"
      false [] 10 statusRegex).counts.total = 6 := by decide
  have h2 : (evalSuccess statusDF "status" "^(ACTIVE|INACTIVE)$" "fullmatch"
      false [] 10 statusRegex).counts.pass = 3 := by decide
  rw [h1, h2]
  norm_num

/-- C8 counterexample: with the never-matching pattern on
`v = ["BAD", "BAD", "X"]` and sample limit 2, `samples.fail_values` is
`["BAD", "BAD"]` — the first 2 failing values — not the first 2
*distinct* failing values `["BAD", "X"]` the claim describes: the code
truncates without deduplicating. -/
theorem check_fail_values_distinct_counterexample :
    ((check_regex_column neverCompile dupDF "v" "(?!)" "fullmatch" true [] 2).getOk.fail_values
      = ["BAD", "BAD"])
    ∧ ((check_regex_column neverCompile dupDF "v" "(?!)" "fullmatch" true [] 2).getOk.fail_values
        ≠ firstDistinctTake 2
            ((nonNullFailEntries dupDF "v" neverRegex (normalize_mode "fullmatch")).map
              (fun p => p.2))) := by
  constructor <;> decide

/-- C8 (amended): for every successful evaluation with sample limit `k`,
`samples.fail_values` is the first `k` failing non-null cell values
(duplicates retained) taken from the non-null fail subset in that
subset's order, and its length is at most the minimum of `k` and the
number of non-null failing rows. -/
theorem check_fail_values_spec
    (recompile : String → Nat → Except String Regex) (df : DataFrame)
    (column pattern mode : String) (allow_null : Bool) (flags : List String) (k : Nat)
    (rx : Regex)
    (hcol : column ∈ df.columnNames)
    (hrx : recompile pattern (resolveFlagBits flags) = Except.ok rx) :
    (check_regex_column recompile df column pattern mode allow_null flags k).getOk.fail_values
      = ((nonNullFailEntries df column rx (normalize_mode mode)).map (fun p => p.2)).take k
    ∧ (check_regex_column recompile df column pattern mode allow_null flags k).getOk.fail_values.length
        ≤ min k (nonNullFailEntries df column rx (normalize_mode mode)).length := by
  rw [check_getOk_eq hcol hrx, evalSuccess_fail_values]
  refine ⟨rfl, ?_⟩
  rw [List.length_take, List.length_map]

/-- Witness for C8 (amended) at the duplicated-value dataset. -/
theorem check_fail_values_spec_witness :
    ("v" ∈ dupDF.columnNames)
    ∧ (neverCompile "(?!)" (resolveFlagBits []) = Except.ok neverRegex)
    ∧ ((check_regex_column neverCompile dupDF "v" "(?!)" "fullmatch" true [] 2).getOk.fail_values
        = ((nonNullFailEntries dupDF "v" neverRegex (normalize_mode "fullmatch")).map
            (fun p => p.2)).take 2
      ∧ (check_regex_column neverCompile dupDF "v" "(?!)" "fullmatch" true [] 2).getOk.fail_values.length
          ≤ min 2 (nonNullFailEntries dupDF "v" neverRegex (normalize_mode "fullmatch")).length) :=
  ⟨by decide, rfl,
    check_fail_values_spec neverCompile dupDF "v" "(?!)" "fullmatch" true [] 2
      neverRegex (by decide) rfl⟩

end PDQ

namespace PDQ

/-- The property the spec ascribes to the combined failed-row view:
(1) a row identifier is listed iff it is a dataset row identifier that
appears in at least one retained rule's `fail_indices`;
(2) no identifier is listed twice;
(3) the listed identifiers form a subsequence of the dataset's row order;
(4) the issues accumulated for a row are exactly the descriptions
`"<column> !~ <pattern>[ (NULL not allowed)]"` (`ruleDesc`) of the
retained rules whose `fail_indices` contain it, in history order;
(5) the emitted row of each listed identifier carries its (null-safe)
dataset cells and `"FAILED: "` followed by its issues joined by
`" || "`. -/
def CombinedViewSpec (df : DataFrame) (history : List CheckResult) : Prop :=
  (∀ i, i ∈ ordered_failed_indices df history
      ↔ i ∈ df.rowIds ∧ ∃ r, CheckResult.ok r ∈ history ∧ i ∈ r.fail_indices)
  ∧ (ordered_failed_indices df history).Nodup
  ∧ (ordered_failed_indices df history).Sublist df.rowIds
  ∧ (∀ i, failMapOf history i
      = ((retainedOks history).filter (fun r => decide (i ∈ r.fail_indices))).map ruleDesc)
  ∧ build_failed_rows_df df history
      = (ordered_failed_indices df history).map (fun i =>
          { cells := df.columnNames.map (fun c => (c, safe_cell (df.cellAt c i)))
            dq_issue := "FAILED: " ++ String.intercalate " || " (failMapOf history i) })

/-- C3: for every dataset with distinct row identifiers and every
history of successful results (whose `fail_indices` lists are
duplicate-free, as every checker output on such a dataset is), the
combined failed-row view has exactly the spec's shape: membership iff
some retained rule failed the row, each row once, dataset row order, and
each row annotated with all of its issue descriptions joined by
`" || "` after the `"FAILED: "` prefix. -/
theorem build_failed_rows_df_spec (df : DataFrame) (history : List CheckResult)
    (hids : df.rowIds.Nodup)
    (hfi : ∀ r, CheckResult.ok r ∈ history → r.fail_indices.Nodup) :
    CombinedViewSpec df history := by
  refine ⟨?_, ?_, ?_, fun i => failMapOf_of_nodup history i hfi, rfl⟩
  · intro i
    unfold ordered_failed_indices
    rw [List.mem_filter]
    have hb : (!(failMapOf history i).isEmpty) = true ↔ failMapOf history i ≠ [] := by
      simp
    rw [hb, failMapOf_ne_nil_iff]
  · exact List.Nodup.filter _ hids
  · exact List.filter_sublist _

/-- The scenario rule's success payload with `allow_null=false` (this is
what `check_regex_column` returns on the scenario, per
`check_getOk_eq`). -/
def resA : CheckOk :=
  evalSuccess statusDF "status" "^(ACTIVE|INACTIVE)$" "fullmatch" false [] 10 statusRegex

/-- The scenario rule's success payload with `allow_null=true`. -/
def resB : CheckOk :=
  evalSuccess statusDF "status" "^(ACTIVE|INACTIVE)$" "fullmatch" true [] 10 statusRegex

/-- A two-rule history of retained scenario results. -/
def histAB : List CheckResult :=
  [CheckResult.ok resA, CheckResult.ok resB]

/-- Witness for C3: the scenario dataset with a two-rule history. -/
theorem build_failed_rows_df_spec_witness :
    (statusDF.rowIds.Nodup)
    ∧ (∀ r, CheckResult.ok r ∈ histAB → r.fail_indices.Nodup)
    ∧ CombinedViewSpec statusDF histAB :=
  ⟨by decide,
    by
      intro r hr
      simp only [histAB, List.mem_cons, List.not_mem_nil, or_false,
        CheckResult.ok.injEq] at hr
      rcases hr with rfl | rfl <;> decide,
    build_failed_rows_df_spec statusDF histAB (by decide)
      (by
        intro r hr
        simp only [histAB, List.mem_cons, List.not_mem_nil, or_false,
          CheckResult.ok.injEq] at hr
        rcases hr with rfl | rfl <;> decide)⟩

/-- C7: for every rule retained in the history, the dashboard's per-rule
failed-row view (`export_html`: `ordered`, dataset row order filtered by
the rule's fail set) lists exactly the rows of the combined spreadsheet
view that belong to that rule — same identifiers, same dataset-row
order. -/
theorem per_rule_view_matches_combined (df : DataFrame)
    (history : List CheckResult) (r : CheckOk)
    (h : CheckResult.ok r ∈ history) :
    (ordered_failed_indices df history).filter (fun i => r.fail_indices.contains i)
      = perRuleOrderedIds df r := by
  unfold ordered_failed_indices perRuleOrderedIds
  rw [List.filter_filter]
  apply List.filter_congr
  intro i _
  by_cases hc : r.fail_indices.contains i = true
  · have hne : failMapOf history i ≠ [] :=
      (failMapOf_ne_nil_iff history i).mpr ⟨r, h, List.elem_iff.mp hc⟩
    have hie : (failMapOf history i).isEmpty = false := by
      rw [← Bool.not_eq_true, List.isEmpty_iff]
      exact hne
    rw [hc, hie]
    rfl
  · rw [Bool.not_eq_true] at hc
    rw [hc]
    rfl

/-- Witness for C7 at the scenario dataset with a two-rule history. -/
theorem per_rule_view_matches_combined_witness :
    (CheckResult.ok resA ∈ histAB)
    ∧ ((ordered_failed_indices statusDF histAB).filter
          (fun i => resA.fail_indices.contains i)
        = perRuleOrderedIds statusDF resA) :=
  ⟨List.mem_cons_self _ _,
    per_rule_view_matches_combined statusDF histAB resA (List.mem_cons_self _ _)⟩

end PDQ

namespace PDQ

lemma check_state_fst (recompile : String → Nat → Except String Regex)
    (df : DataFrame) (column pattern mode : String) (allow_null : Bool)
    (flags : List String) (k : Nat) :
    (check_regex_column_state recompile df column pattern mode allow_null flags k).1 = df := by
  unfold check_regex_column_state dfColumnsOp dfColumnOp
  by_cases h : column ∈ df.columnNames
  · cases hrx : compileRx recompile pattern flags <;> simp [h, hrx]
  · simp [h]

lemma check_state_snd (recompile : String → Nat → Except String Regex)
    (df : DataFrame) (column pattern mode : String) (allow_null : Bool)
    (flags : List String) (k : Nat) :
    (check_regex_column_state recompile df column pattern mode allow_null flags k).2
      = check_regex_column recompile df column pattern mode allow_null flags k := by
  unfold check_regex_column_state check_regex_column dfColumnsOp dfColumnOp
  by_cases h : column ∈ df.columnNames
  · cases hrx : compileRx recompile pattern flags <;> simp [h, hrx]
  · simp [h]

/-- C10: `check_regex_column` never modifies the dataset. In the
state-passing form — where the source's two accesses to the dataframe
(the `df.columns` membership test and the `df[column]` read, both
non-mutating pandas operations) thread the dataframe through — the
dataframe coming out equals the dataframe going in, for every input and
on the error branches as much as on the success branch, and the result
is exactly what the direct function computes; columns, row identifiers
and cell values are therefore all preserved. -/
theorem check_preserves_dataset (recompile : String → Nat → Except String Regex)
    (df : DataFrame) (column pattern mode : String) (allow_null : Bool)
    (flags : List String) (k : Nat) :
    (check_regex_column_state recompile df column pattern mode allow_null flags k).1 = df
    ∧ (check_regex_column_state recompile df column pattern mode allow_null flags k).2
        = check_regex_column recompile df column pattern mode allow_null flags k :=
  ⟨check_state_fst recompile df column pattern mode allow_null flags k,
    check_state_snd recompile df column pattern mode allow_null flags k⟩

/-- C9: evaluating the same rule spec twice in sequence against the same
dataset yields identical results — the second run (on the dataframe
returned by the first) returns the same CheckResult as the first (hence
the same counts, pass_rate, samples and fail_indices, in the same
order), and leaves the dataframe equal to the original. -/
theorem check_idempotent (recompile : String → Nat → Except String Regex)
    (df : DataFrame) (column pattern mode : String) (allow_null : Bool)
    (flags : List String) (k : Nat) :
    (check_regex_column_state recompile
        (check_regex_column_state recompile df column pattern mode allow_null flags k).1
        column pattern mode allow_null flags k).2
      = (check_regex_column_state recompile df column pattern mode allow_null flags k).2
    ∧ (check_regex_column_state recompile
        (check_regex_column_state recompile df column pattern mode allow_null flags k).1
        column pattern mode allow_null flags k).1 = df := by
  rw [check_state_fst recompile df column pattern mode allow_null flags k]
  exact ⟨rfl, check_state_fst recompile df column pattern mode allow_null flags k⟩

end PDQ
